import Mathlib

/-!
Verification of the Trapdaemon honeypot core against its specification.

Strings from the JavaScript source are modelled as `List Char`; machine
integers are `Nat` with explicit `% 2^32` where overflow matters; the
event-emitter side effects are modelled by returning the list of emitted
incident records together with the updated detector state.
-/

/-- Characters of a string literal, the representation used for all
JavaScript strings in this development. -/
def strL (s : String) : List Char := s.data

/-- Case folding used by the `/i` regex flag and `toLowerCase()`,
restricted to the ASCII letters that occur in the rule patterns. -/
def lc (s : List Char) : List Char := s.map Char.toLower

/-- JavaScript `String.prototype.trim` whitespace class (ECMA WhiteSpace
and LineTerminator code points). -/
def isWS (c : Char) : Bool :=
  c = ' ' || c = Char.ofNat 9 || c = Char.ofNat 10 || c = Char.ofNat 11 ||
  c = Char.ofNat 12 || c = Char.ofNat 13 || c = Char.ofNat 0xA0 ||
  c = Char.ofNat 0xFEFF || c = Char.ofNat 0x2028 || c = Char.ofNat 0x2029

/-- Leading-whitespace removal of `trim()`. -/
def trimLeftL (s : List Char) : List Char := s.dropWhile isWS

/-- Trailing-whitespace removal of `trim()`. -/
def trimRightL (s : List Char) : List Char := (s.reverse.dropWhile isWS).reverse

/-- JavaScript `trim()`. -/
def trimL (s : List Char) : List Char := trimRightL (trimLeftL s)

/-- JavaScript `String.prototype.includes`: `pat` occurs as a contiguous
substring of `s`. -/
def containsL (s pat : List Char) : Bool :=
  pat.isPrefixOf s ||
  match s with
  | [] => false
  | _ :: t => containsL t pat

/-- A character matched by the regex metacharacter `.` without the
`dotAll` flag: anything but a line terminator. -/
def isDotChar (c : Char) : Bool :=
  !(c = Char.ofNat 10 || c = Char.ofNat 13 || c = Char.ofNat 0x2028 ||
    c = Char.ofNat 0x2029)

/-- All suffixes of `s` reachable by consuming a (possibly empty) run
of `.`-matchable characters from the front: the candidate resumption
points after a `.*`. -/
def dotPrefixSplits : List Char → List (List Char)
  | [] => [[]]
  | c :: t => (c :: t) :: (if isDotChar c then dotPrefixSplits t else [])

/-- Matcher for the tail of a regex of shape `.*lit₁.*lit₂.*…`: every
literal piece in `ps` must occur in order, each preceded by a run of
`.`-matchable characters. -/
def chainAfter : List (List Char) → List Char → Bool
  | [], _ => true
  | p :: rest, s =>
    (dotPrefixSplits s).any (fun s2 =>
      p.isPrefixOf s2 && chainAfter rest (s2.drop p.length))

/-- All suffixes of `s`: the candidate match start positions of an
unanchored regex search. -/
def allSuffixes : List Char → List (List Char)
  | [] => [[]]
  | c :: t => (c :: t) :: allSuffixes t

/-- Regex `test` for a pattern `lit₁.*lit₂.*…`: the match may start at
any position of the subject string. -/
def searchChain (ps : List (List Char)) (s : List Char) : Bool :=
  match ps with
  | [] => true
  | p :: rest =>
    (allSuffixes s).any (fun s2 =>
      p.isPrefixOf s2 && chainAfter rest (s2.drop p.length))

/-- `RegExp.test` with the `/i` flag for an alternation of
`lit.*lit.*…` chains, the shape of every detection-rule pattern:
the subject is case folded and any alternative may match. -/
def ruleTest (chains : List (List (List Char))) (payload : List Char) : Bool :=
  chains.any (fun ch => searchChain ch (lc payload))

/-! ### MD5, as used by `generateTargetId` (`crypto.createHash("md5")`) -/

/-- UTF-8 encoding of one code point, the byte stream `hash.update(ip)`
consumes. -/
def utf8Char (c : Char) : List Nat :=
  let n := c.toNat
  if n < 128 then [n]
  else if n < 2048 then [192 + n / 64, 128 + n % 64]
  else if n < 65536 then [224 + n / 4096, 128 + (n / 64) % 64, 128 + n % 64]
  else [240 + n / 262144, 128 + (n / 4096) % 64, 128 + (n / 64) % 64, 128 + n % 64]

/-- UTF-8 bytes of a string. -/
def utf8Str (s : List Char) : List Nat := s.flatMap utf8Char

/-- 32-bit truncation. -/
def w32 (n : Nat) : Nat := n % 4294967296

/-- 32-bit bitwise complement. -/
def not32 (n : Nat) : Nat := 4294967295 - w32 n

/-- 32-bit left rotation. -/
def rotl32 (x n : Nat) : Nat := w32 (x * 2 ^ n) + (w32 x) / 2 ^ (32 - n) % 2 ^ n

/-- MD5 per-round sine-derived constants. -/
def md5K : List Nat :=
  [0xd76aa478, 0xe8c7b756, 0x242070db, 0xc1bdceee,
   0xf57c0faf, 0x4787c62a, 0xa8304613, 0xfd469501,
   0x698098d8, 0x8b44f7af, 0xffff5bb1, 0x895cd7be,
   0x6b901122, 0xfd987193, 0xa679438e, 0x49b40821,
   0xf61e2562, 0xc040b340, 0x265e5a51, 0xe9b6c7aa,
   0xd62f105d, 0x02441453, 0xd8a1e681, 0xe7d3fbc8,
   0x21e1cde6, 0xc33707d6, 0xf4d50d87, 0x455a14ed,
   0xa9e3e905, 0xfcefa3f8, 0x676f02d9, 0x8d2a4c8a,
   0xfffa3942, 0x8771f681, 0x6d9d6122, 0xfde5380c,
   0xa4beea44, 0x4bdecfa9, 0xf6bb4b60, 0xbebfbc70,
   0x289b7ec6, 0xeaa127fa, 0xd4ef3085, 0x04881d05,
   0xd9d4d039, 0xe6db99e5, 0x1fa27cf8, 0xc4ac5665,
   0xf4292244, 0x432aff97, 0xab9423a7, 0xfc93a039,
   0x655b59c3, 0x8f0ccc92, 0xffeff47d, 0x85845dd1,
   0x6fa87e4f, 0xfe2ce6e0, 0xa3014314, 0x4e0811a1,
   0xf7537e82, 0xbd3af235, 0x2ad7d2bb, 0xeb86d391]

/-- MD5 per-round left-rotation amounts. -/
def md5S : List Nat :=
  [7, 12, 17, 22, 7, 12, 17, 22, 7, 12, 17, 22, 7, 12, 17, 22,
   5, 9, 14, 20, 5, 9, 14, 20, 5, 9, 14, 20, 5, 9, 14, 20,
   4, 11, 16, 23, 4, 11, 16, 23, 4, 11, 16, 23, 4, 11, 16, 23,
   6, 10, 15, 21, 6, 10, 15, 21, 6, 10, 15, 21, 6, 10, 15, 21]

/-- MD5 nonlinear round function for round `i`. -/
def md5F (i b c d : Nat) : Nat :=
  if i < 16 then Nat.lor (Nat.land b c) (Nat.land (not32 b) d)
  else if i < 32 then Nat.lor (Nat.land d b) (Nat.land (not32 d) c)
  else if i < 48 then Nat.xor b (Nat.xor c d)
  else Nat.xor c (Nat.lor b (not32 d))

/-- MD5 message-word index for round `i`. -/
def md5G (i : Nat) : Nat :=
  if i < 16 then i
  else if i < 32 then (5 * i + 1) % 16
  else if i < 48 then (3 * i + 5) % 16
  else (7 * i) % 16

/-- One MD5 round step on the running state. -/
def md5Step (M : List Nat) (st : Nat × Nat × Nat × Nat) (i : Nat) :
    Nat × Nat × Nat × Nat :=
  let (a, b, c, d) := st
  let f := w32 (a + md5F i b c d + (md5K.getD i 0) + (M.getD (md5G i) 0))
  (d, w32 (b + rotl32 f (md5S.getD i 0)), b, c)

/-- Split a byte list into groups of four little-endian 32-bit words. -/
def leWords : List Nat → List Nat
  | b0 :: b1 :: b2 :: b3 :: rest =>
      (b0 + 256 * b1 + 65536 * b2 + 16777216 * b3) :: leWords rest
  | _ => []

/-- Split the padded byte list (whose length is a multiple of 64) into
its 64-byte blocks. -/
def md5Blocks (bs : List Nat) : List (List Nat) :=
  (List.range (bs.length / 64)).map (fun i => (bs.drop (64 * i)).take 64)

/-- MD5 padding: a `0x80` byte, zeros to 56 mod 64, then the original
bit length as eight little-endian bytes. -/
def md5Pad (msg : List Nat) : List Nat :=
  let len := msg.length
  let zeros := (120 - (len + 1) % 64) % 64
  let bitLen := (len * 8) % 2 ^ 64
  msg ++ [128] ++ List.replicate zeros 0 ++
    (List.range 8).map (fun i => bitLen / 2 ^ (8 * i) % 256)

/-- Process one 64-byte block, updating the four chaining words. -/
def md5Block (h : Nat × Nat × Nat × Nat) (block : List Nat) :
    Nat × Nat × Nat × Nat :=
  let M := leWords block
  let (a, b, c, d) := (List.range 64).foldl (md5Step M) h
  let (h0, h1, h2, h3) := h
  (w32 (h0 + a), w32 (h1 + b), w32 (h2 + c), w32 (h3 + d))

/-- Lowercase hexadecimal digit. -/
def hexDigit (n : Nat) : Char :=
  if n < 10 then Char.ofNat (48 + n) else Char.ofNat (87 + n % 16)

/-- A 32-bit word as four little-endian bytes, each as two hex digits. -/
def wordHex (x : Nat) : List Char :=
  (List.range 4).flatMap (fun i =>
    let b := x / 2 ^ (8 * i) % 256
    [hexDigit (b / 16), hexDigit (b % 16)])

/-- MD5 digest of a byte list as a 32-character lowercase hex string. -/
def md5Hex (msg : List Nat) : List Char :=
  let (a, b, c, d) :=
    (md5Blocks (md5Pad msg)).foldl md5Block
      (0x67452301, 0xefcdab89, 0x98badcfe, 0x10325476)
  wordHex a ++ wordHex b ++ wordHex c ++ wordHex d

/-- `generateTargetId`: first eight hex characters of the MD5 of the
source address. -/
def generateTargetId (ip : List Char) : List Char :=
  (md5Hex (utf8Str ip)).take 8

/-! ### Attack Detection Engine data model (`AttackDetector`) -/

/-- One traffic observation handed to `processTrafficData`. Fields are
optional: JavaScript treats a missing, `null` or empty-string field as
falsy, modelled by `none`/`some []`. -/
structure TrafficData where
  src_ip : Option (List Char) := none
  source : Option (List Char) := none
  payload : Option (List Char) := none
  dst_ip : Option (List Char) := none
  target : Option (List Char) := none
  dst_port : Option Nat := none
  port : Option Nat := none
deriving Repr, DecidableEq

/-- Truthiness of a JavaScript string value: `undefined`, `null` and the
empty string are falsy. -/
def jsStr (a : Option (List Char)) : Option (List Char) :=
  match a with
  | some [] => none
  | x => x

/-- `a || b` on two optional strings. -/
def jsOrS (a b : Option (List Char)) : Option (List Char) :=
  match jsStr a with
  | some s => some s
  | none => jsStr b

/-- `a || b || dflt` with a string default. -/
def jsOrD (a b : Option (List Char)) (dflt : List Char) : List Char :=
  (jsOrS a b).getD dflt

/-- Truthiness of a JavaScript number: `0` is falsy. -/
def jsNat (a : Option Nat) : Option Nat :=
  match a with
  | some 0 => none
  | x => x

/-- `a || b` on two optional numbers. -/
def jsOrN (a b : Option Nat) : Option Nat :=
  match jsNat a with
  | some n => some n
  | none => jsNat b

/-- `data.src_ip || data.source || "unknown"`, the source address every
emission path of the detector resolves. -/
def resolvedSource (d : TrafficData) : List Char :=
  jsOrD d.src_ip d.source (strL "unknown")

/-- `data.dst_ip || data.target || "honeypot"`. -/
def resolvedTarget (d : TrafficData) : List Char :=
  jsOrD d.dst_ip d.target (strL "honeypot")

/-- `safeString` of the detector applied to an optional string:
`null`/`undefined` become the empty string, strings are trimmed. -/
def safeString (x : Option (List Char)) : List Char :=
  match x with
  | none => []
  | some s => trimL s

/-- The exact-match localhost variants of `isLocalhostStrict`. -/
def localhostVariants : List (List Char) :=
  [strL "127.0.0.1", strL "::1", strL "localhost", strL "unknown",
   strL "system", strL "filesystem", strL "0.0.0.0", strL "local"]

/-- `isLocalhostStrict`: falsy addresses, the localhost variants and
every loopback/private prefix are treated as local, on the lowercased,
trimmed address. -/
def isLocalhostStrict (ip? : Option (List Char)) : Bool :=
  match ip? with
  | none => true
  | some ip =>
    if ip.isEmpty then true
    else
      let s := trimL (lc ip)
      localhostVariants.contains s ||
      (strL "127.").isPrefixOf s ||
      (strL "::").isPrefixOf s ||
      (strL "192.168.").isPrefixOf s ||
      (strL "10.").isPrefixOf s ||
      (strL "172.16.").isPrefixOf s ||
      (strL "172.17.").isPrefixOf s ||
      (strL "172.18.").isPrefixOf s ||
      (strL "172.19.").isPrefixOf s ||
      (strL "172.20.").isPrefixOf s ||
      (strL "172.21.").isPrefixOf s ||
      (strL "172.22.").isPrefixOf s ||
      (strL "172.23.").isPrefixOf s ||
      (strL "172.24.").isPrefixOf s ||
      (strL "172.25.").isPrefixOf s ||
      (strL "172.26.").isPrefixOf s ||
      (strL "172.27.").isPrefixOf s ||
      (strL "172.28.").isPrefixOf s ||
      (strL "172.29.").isPrefixOf s ||
      (strL "172.30.").isPrefixOf s ||
      (strL "172.31.").isPrefixOf s

/-- An emitted incident (`attackDetected` payload). The random `id` and
wall-clock `timestamp`/`meta` fields carry no detection logic and are
omitted. -/
structure Attack where
  type : List Char
  description : List Char
  severity : List Char
  source : List Char
  target : List Char
  payload : List Char := []
  targetId : List Char
deriving Repr, DecidableEq

/-- A detection rule: pattern (as an alternation of literal chains, see
`ruleTest`), threshold, window, severity, description. -/
structure Rule where
  pattern : List (List (List Char))
  threshold : Nat
  timeWindow : Nat
  severity : List Char
  description : List Char

/-- The ruleset installed by `loadDetectionRules`, in insertion order. -/
def detectionRules : List (List Char × Rule) :=
  [(strL "bruteforce",
    { pattern := [[strL "failed", strL "login"], [strL "failed", strL "password"],
                  [strL "failed", strL "authentication"], [strL "failed", strL "auth"]],
      threshold := 5, timeWindow := 300000, severity := strL "high",
      description := strL "Brute force attack detected" }),
   (strL "portscan",
    { pattern := [[strL "connection", strL "refused"], [strL "connection", strL "reset"],
                  [strL "connection", strL "timeout"]],
      threshold := 10, timeWindow := 60000, severity := strL "medium",
      description := strL "Port scanning activity detected" }),
   (strL "sqlinjection",
    { pattern := [[strL "union", strL "select"], [strL "drop", strL "table"],
                  [strL "insert", strL "into"], [strL "update", strL "set"],
                  [strL "delete", strL "from"],
                  [[Char.ofNat 39], strL "or", [Char.ofNat 39]],
                  [[Char.ofNat 34], strL "or", [Char.ofNat 34]],
                  [strL "select", strL "from"]],
      threshold := 1, timeWindow := 0, severity := strL "high",
      description := strL "SQL injection attempt detected" }),
   (strL "xss",
    { pattern := [[strL "<script"], [strL "javascript:"], [strL "onload="],
                  [strL "onerror="], [strL "onclick="], [strL "onmouseover="]],
      threshold := 1, timeWindow := 0, severity := strL "medium",
      description := strL "Cross-site scripting attempt detected" }),
   (strL "directory_traversal",
    { pattern := [[strL "../"], [strL "..\\"]],
      threshold := 1, timeWindow := 0, severity := strL "high",
      description := strL "Directory traversal attempt detected" }),
   (strL "command_injection",
    { pattern :=
        ([strL ";", strL "|", strL "&", strL "$(", [Char.ofNat 96]]).flatMap
          (fun a =>
            ([strL "cat", strL "ls", strL "pwd", strL "whoami", strL "id",
              strL "uname", strL "nc", strL "netcat", strL "wget", strL "curl",
              strL "bash", strL "sh", strL "cmd", strL "powershell"]).map
              (fun b => [a, b])),
      threshold := 1, timeWindow := 0, severity := strL "critical",
      description := strL "Command injection attempt detected" }),
   (strL "malware_download",
    { pattern :=
        ([strL "wget", strL "curl", strL "powershell", strL "certutil"]).flatMap
          (fun a =>
            ([strL ".exe", strL ".bat", strL ".scr", strL ".dll", strL ".ps1"]).map
              (fun b => [a, b])),
      threshold := 1, timeWindow := 0, severity := strL "high",
      description := strL "Malware download attempt detected" })]

/-- The `malicious_ips` threat-signature set. -/
def maliciousIPs : List (List Char) := [strL "192.168.1.666", strL "10.0.0.666"]

/-- The `attack_patterns` threat-signature set, in insertion order. -/
def attackPatternSigs : List (List Char) :=
  [strL "union+select", strL "../../../etc/passwd", strL "cmd.exe",
   strL "powershell.exe", strL "/bin/bash", strL "nc -l", strL "rm -rf",
   strL "format c:"]

/-- The `suspicious_extensions` threat-signature set. -/
def suspiciousExtensions : List (List Char) :=
  [strL ".exe", strL ".bat", strL ".scr", strL ".pif", strL ".com",
   strL ".cmd", strL ".ps1", strL ".vbs"]

/-- One entry of the detector's traffic ring buffer: the observation
plus the arrival timestamp `Date.now()`. -/
structure TrafficEntry where
  data : TrafficData
  timestamp : Nat
deriving Repr, DecidableEq

/-- One entry of a per-source activity record. -/
structure ActivityEntry where
  port : Option Nat := none
  timestamp : Nat := 0
deriving Repr, DecidableEq

/-- Mutable state of the `AttackDetector`. -/
structure DetectorState where
  trafficBuffer : List TrafficEntry := []
  ipActivity : List (List Char × List ActivityEntry) := []
  attackPatterns : List Attack := []
deriving Repr, DecidableEq

/-- Fresh detector state. -/
def initDetector : DetectorState := {}

/-- Association-list lookup, modelling `Map.prototype.get`. -/
def alGet (m : List (List Char × α)) (k : List Char) : Option α :=
  (m.find? (fun e => e.1 == k)).map (·.2)

/-- Association-list update, modelling `Map.prototype.set`: an existing
key keeps its position, a new key is appended (JavaScript `Map`
iteration follows insertion order). -/
def alSet (m : List (List Char × α)) (k : List Char) (v : α) :
    List (List Char × α) :=
  if m.any (fun e => e.1 == k) then
    m.map (fun e => if e.1 == k then (k, v) else e)
  else m ++ [(k, v)]

/-- `reportThreat`: builds and emits one high-severity threat incident,
unless the resolved source is local. -/
def reportThreat (threatType : List Char) (d : TrafficData)
    (description : List Char) : List Attack :=
  let source := resolvedSource d
  if isLocalhostStrict (some source) then []
  else
    [{ type := strL "threat_" ++ threatType
       description := description
       severity := strL "high"
       source := source
       target := resolvedTarget d
       payload := safeString d.payload
       targetId := generateTargetId source }]

/-- `checkThreatSignatures`: blacklist source match, then the first
matching attack-pattern substring, then the first matching suspicious
file extension, each reported through `reportThreat`. -/
def checkThreatSignatures (d : TrafficData) : List Attack :=
  let sourceIP? := jsOrS d.src_ip d.source
  if isLocalhostStrict sourceIP? then []
  else
    let ipThreats :=
      match sourceIP? with
      | some ip =>
          if maliciousIPs.contains ip then
            reportThreat (strL "malicious_ip") d
              (strL "Connection from known malicious IP")
          else []
      | none => []
    let payload := safeString d.payload
    let patThreats :=
      if payload.isEmpty then []
      else
        match attackPatternSigs.find? (fun p => containsL (lc payload) (lc p)) with
        | some p =>
            reportThreat (strL "attack_pattern") d
              (strL "Known attack pattern detected: " ++ p)
        | none => []
    let extThreats :=
      if payload.isEmpty then []
      else
        match suspiciousExtensions.find? (fun e => containsL (lc payload) (lc e)) with
        | some e =>
            reportThreat (strL "suspicious_file") d
              (strL "Suspicious file extension detected: " ++ e)
        | none => []
    ipThreats ++ patThreats ++ extThreats

/-- `analyzeImmediateThreats`: the signature pass over every detection
rule followed by the threat-signature pass. A rule fires whenever its
pattern matches a nonempty payload; the rule `threshold` and
`timeWindow` fields are never consulted here. -/
def analyzeImmediateThreats (d : TrafficData) : List Attack :=
  let payload := safeString d.payload
  let sourceIP := resolvedSource d
  if isLocalhostStrict (some sourceIP) then []
  else
    let ruleAttacks :=
      detectionRules.filterMap (fun nr =>
        if !payload.isEmpty && ruleTest nr.2.pattern payload then
          some { type := nr.1
                 description := nr.2.description
                 severity := nr.2.severity
                 source := sourceIP
                 target := resolvedTarget d
                 payload := payload
                 targetId := generateTargetId sourceIP }
        else none)
    ruleAttacks ++ checkThreatSignatures d

/-- `processTrafficData`: drop falsy data or payload, drop local
sources, append to the ring buffer (evicting to the newest 500 past
1000), then run the immediate analysis. Returns the new state and the
incidents emitted for this observation. -/
def processTrafficData (st : DetectorState) (now : Nat)
    (data? : Option TrafficData) : DetectorState × List Attack :=
  match data? with
  | none => (st, [])
  | some d =>
    match jsStr d.payload with
    | none => (st, [])
    | some _ =>
      let sourceIP := resolvedSource d
      if isLocalhostStrict (some sourceIP) then (st, [])
      else
        let buf := st.trafficBuffer ++ [⟨d, now⟩]
        let buf := if buf.length > 1000 then buf.drop (buf.length - 500) else buf
        let attacks := analyzeImmediateThreats d
        ({ st with
            trafficBuffer := buf
            attackPatterns := st.attackPatterns ++ attacks }, attacks)

/-- Decimal rendering of a counter, as interpolated into descriptions. -/
def natStr (n : Nat) : List Char := (Nat.repr n).data

/-- Append a port to a set modelled as a duplicate-free list in
insertion order (`Set.prototype.add`). -/
def addIfNew (l : List Nat) (p : Nat) : List Nat :=
  if l.contains p then l else l ++ [p]

/-- The per-item accumulation of `detectPortScanning`: create the
source's port set on first sight, then add the truthy destination
port. -/
def portScanStep (m : List (List Char × List Nat)) (e : TrafficEntry) :
    List (List Char × List Nat) :=
  match jsOrS e.data.src_ip e.data.source with
  | none => m
  | some ip =>
    if isLocalhostStrict (some ip) then m
    else
      let m := if m.any (fun x => x.1 == ip) then m else m ++ [(ip, ([] : List Nat))]
      match jsOrN e.data.dst_port e.data.port with
      | some p => alSet m ip (addIfNew ((alGet m ip).getD []) p)
      | none => m

/-- `detectPortScanning`: group the distinct destination ports touched
by each non-local source; more than 15 distinct ports emits one
port-scanning incident for that source. -/
def detectPortScanning (traffic : List TrafficEntry) : List Attack :=
  let m := traffic.foldl portScanStep []
  m.filterMap (fun e =>
    if isLocalhostStrict (some e.1) then none
    else if e.2.length > 15 then
      some { type := strL "port_scanning"
             description := strL "Port scanning detected - " ++ natStr e.2.length ++
               strL " ports accessed"
             severity := strL "medium"
             source := e.1
             target := strL "multiple"
             targetId := generateTargetId e.1 }
    else none)

/-- The authentication-keyword test `/login|password|auth|ssh|ftp|telnet/i`. -/
def bruteKeyword (payload : List Char) : Bool :=
  [strL "login", strL "password", strL "auth", strL "ssh", strL "ftp",
   strL "telnet"].any (fun k => containsL (lc payload) k)

/-- `detectBruteForcePatterns`: count keyword-flagged observations per
non-local source; more than 10 emits one brute-force incident. -/
def detectBruteForcePatterns (traffic : List TrafficEntry) : List Attack :=
  let m := traffic.foldl
    (fun m e =>
      match jsOrS e.data.src_ip e.data.source with
      | none => m
      | some ip =>
        let payload := safeString e.data.payload
        if payload.isEmpty || isLocalhostStrict (some ip) then m
        else if bruteKeyword payload then
          alSet m ip (((alGet m ip).getD 0) + 1)
        else m)
    []
  m.filterMap (fun e =>
    if isLocalhostStrict (some e.1) then none
    else if e.2 > 10 then
      some { type := strL "brute_force"
             description := strL "Brute force attack detected - " ++ natStr e.2 ++
               strL " authentication attempts"
             severity := strL "high"
             source := e.1
             target := strL "authentication_system"
             targetId := generateTargetId e.1 }
    else none)

/-- `detectDataExfiltration`: per non-local source, sum the sizes of
payloads longer than 500; a total above 50000 emits one incident. -/
def detectDataExfiltration (traffic : List TrafficEntry) : List Attack :=
  let m := traffic.foldl
    (fun m e =>
      match jsOrS e.data.src_ip e.data.source with
      | none => m
      | some ip =>
        let payload := safeString e.data.payload
        if payload.isEmpty || isLocalhostStrict (some ip) then m
        else if payload.length > 500 then
          alSet m ip (((alGet m ip).getD 0) + payload.length)
        else m)
    []
  m.filterMap (fun e =>
    if isLocalhostStrict (some e.1) then none
    else if e.2 > 50000 then
      some { type := strL "data_exfiltration"
             description := strL "Potential data exfiltration - " ++
               natStr ((2 * e.2 + 1024) / 2048) ++ strL "KB transferred"
             severity := strL "high"
             source := e.1
             target := strL "data_store"
             targetId := generateTargetId e.1 }
    else none)

/-- `detectSuspiciousVolume`: per non-local source, count observations;
more than 100 emits one incident. -/
def detectSuspiciousVolume (traffic : List TrafficEntry) : List Attack :=
  let m := traffic.foldl
    (fun m e =>
      match jsOrS e.data.src_ip e.data.source with
      | none => m
      | some ip =>
        if isLocalhostStrict (some ip) then m
        else alSet m ip (((alGet m ip).getD 0) + 1))
    []
  m.filterMap (fun e =>
    if isLocalhostStrict (some e.1) then none
    else if e.2 > 100 then
      some { type := strL "suspicious_volume"
             description := strL "Suspicious traffic volume - " ++ natStr e.2 ++
               strL " requests in 5 minutes"
             severity := strL "medium"
             source := e.1
             target := strL "honeypot"
             targetId := generateTargetId e.1 }
    else none)

/-- `analyzeTrafficBuffer` (the fast 5-second cadence): keep only
recent non-local buffer entries, then run the four windowed detectors
over them. These detectors emit without appending to
`attackPatterns`. -/
def analyzeTrafficBuffer (st : DetectorState) (now : Nat) :
    DetectorState × List Attack :=
  let recent := st.trafficBuffer.filter (fun e =>
    decide (now - e.timestamp < 300000) &&
    !isLocalhostStrict (jsOrS e.data.src_ip e.data.source))
  ({ st with trafficBuffer := recent },
   detectPortScanning recent ++ detectBruteForcePatterns recent ++
   detectDataExfiltration recent ++ detectSuspiciousVolume recent)

/-- `reportBehavioralAnomaly`: one medium-severity behavioral incident
for a non-local source. -/
def reportBehavioralAnomaly (ip anomalyType description : List Char) :
    List Attack :=
  if isLocalhostStrict (some ip) then []
  else
    [{ type := strL "behavioral_" ++ anomalyType
       description := description
       severity := strL "medium"
       source := ip
       target := strL "honeypot"
       targetId := generateTargetId ip }]

/-- Remove duplicates keeping first occurrences (`new Set(list)`). -/
def dedupNats (l : List Nat) : List Nat :=
  l.foldl (fun acc p => if acc.contains p then acc else acc ++ [p]) []

/-- `analyzeIPBehavior`: high-volume and port-diversity checks over one
source's recent activity (the slow 30-second cadence). -/
def analyzeIPBehavior (ip : List Char) (activities : List ActivityEntry) :
    List Attack :=
  if isLocalhostStrict (some ip) then []
  else
    (if activities.length > 50 then
      reportBehavioralAnomaly ip (strL "high_volume")
        (strL "High volume activity: " ++ natStr activities.length ++
         strL " actions in 5 minutes")
    else []) ++
    (let uniquePorts := dedupNats (activities.filterMap (fun a => jsNat a.port))
     if uniquePorts.length > 10 then
      reportBehavioralAnomaly ip (strL "port_scanning")
        (strL "Port scanning detected: " ++ natStr uniquePorts.length ++
         strL " different ports accessed")
    else [])

/-- `analyzeBehaviorPatterns`: prune each non-local source's activity
to the five-minute window and analyze it; `reportBehavioralAnomaly`
also appends to `attackPatterns`. -/
def analyzeBehaviorPatterns (st : DetectorState) (now : Nat) :
    DetectorState × List Attack :=
  let pruned := st.ipActivity.map (fun e =>
    if isLocalhostStrict (some e.1) then e
    else (e.1, e.2.filter (fun a => decide (now - a.timestamp < 300000))))
  let attacks := pruned.flatMap (fun e =>
    if isLocalhostStrict (some e.1) then []
    else analyzeIPBehavior e.1 e.2)
  ({ st with ipActivity := pruned,
             attackPatterns := st.attackPatterns ++ attacks }, attacks)

/-- `recordIPActivity`: append a stamped activity entry for a truthy,
non-local source, evicting to the newest 50 past 100 entries. -/
def recordIPActivity (st : DetectorState) (now : Nat)
    (ip? : Option (List Char)) (act? : Option ActivityEntry) : DetectorState :=
  match jsStr ip?, act? with
  | none, _ => st
  | _, none => st
  | some ip, some act =>
    if isLocalhostStrict (some ip) then st
    else
      let acts := ((alGet st.ipActivity ip).getD []) ++ [{ act with timestamp := now }]
      let acts := if acts.length > 100 then acts.drop (acts.length - 50) else acts
      { st with ipActivity := alSet st.ipActivity ip acts }

/-- Decimal digit test for the IPv4 extraction pattern. -/
def isDigitChar (c : Char) : Bool := 48 ≤ c.toNat && c.toNat ≤ 57

/-- Regex word character, for the `\b` boundaries of the pattern. -/
def isWordChar (c : Char) : Bool :=
  isDigitChar c || (97 ≤ c.toNat && c.toNat ≤ 122) ||
  (65 ≤ c.toNat && c.toNat ≤ 90) || c = '_'

/-- All ways to take one to three leading digits, longest first — the
backtracking order of the greedy `[0-9]{1,3}`. -/
def digitSplits (s : List Char) : List (List Char × List Char) :=
  match s with
  | c1 :: t1 =>
    if isDigitChar c1 then
      match t1 with
      | c2 :: t2 =>
        if isDigitChar c2 then
          match t2 with
          | c3 :: t3 =>
            if isDigitChar c3 then
              [([c1, c2, c3], t3), ([c1, c2], t2), ([c1], t1)]
            else [([c1, c2], t2), ([c1], t1)]
          | [] => [([c1, c2], t2), ([c1], t1)]
        else [([c1], t1)]
      | [] => [([c1], t1)]
    else []
  | [] => []

/-- Consume a literal dot. -/
def dotThen (s : List Char) : Option (List Char) :=
  match s with
  | c :: t => if c = '.' then some t else none
  | [] => none

/-- Final digit group of the IPv4 pattern followed by a `\b`. -/
def lastGroup (s : List Char) : Option (List Char) :=
  (digitSplits s).findSome? (fun dr =>
    match dr.2 with
    | [] => some dr.1
    | c :: _ => if isWordChar c then none else some dr.1)

/-- Match `(?:[0-9]{1,3}\.){3}[0-9]{1,3}\b` at the start of `s`,
returning the matched text. -/
def matchIPAt (s : List Char) : Option (List Char) :=
  (digitSplits s).findSome? (fun d1 =>
    (dotThen d1.2).bind (fun r1 =>
      (digitSplits r1).findSome? (fun d2 =>
        (dotThen d2.2).bind (fun r2 =>
          (digitSplits r2).findSome? (fun d3 =>
            (dotThen d3.2).bind (fun r3 =>
              (lastGroup r3).map (fun d4 =>
                d1.1 ++ [Char.ofNat 46] ++ d2.1 ++ [Char.ofNat 46] ++
                d3.1 ++ [Char.ofNat 46] ++ d4)))))))

/-- Left-to-right scan for the first IPv4 match; the flag records
whether a `\b` holds before the current position (the pattern starts
with a word character). -/
def scanIP : List Char → Bool → Option (List Char)
  | [], _ => none
  | c :: t, bOK =>
    match (if bOK then matchIPAt (c :: t) else none) with
    | some ip => some ip
    | none => scanIP t (!isWordChar c)

/-- `extractIPFromLog`: first IPv4-shaped substring of a log line. -/
def extractIPFromLog (line : List Char) : Option (List Char) :=
  scanIP line true

/-- `analyzeLogLine`: extract the source from the line, drop local
sources, then fire every rule whose pattern matches the whole line.
Incidents from this path carry the constant target-id `"system"`. -/
def analyzeLogLine (line logType : List Char) : List Attack :=
  let ip := (extractIPFromLog line).getD (strL "unknown")
  if isLocalhostStrict (some ip) then []
  else
    detectionRules.filterMap (fun nr =>
      if ruleTest nr.2.pattern line then
        some { type := strL "log_" ++ nr.1
               description := nr.2.description ++ strL " in " ++ logType ++ strL " logs"
               severity := nr.2.severity
               source := ip
               target := strL "system"
               payload := line
               targetId := strL "system" }
      else none)

/-! ### Protocol interaction engines (`HoneypotCore`) -/

/-- Remove every carriage return and line feed
(`replace(/\r\n|\r|\n/g, "")`). -/
def stripNewlines (s : List Char) : List Char :=
  s.filter (fun c => !(c = Char.ofNat 13 || c = Char.ofNat 10))

/-- `toUpperCase()` on the ASCII commands the FTP engine receives. -/
def ucL (s : List Char) : List Char := s.map Char.toUpper

/-- State of one Telnet session: the two-step login harvester.
`closed` models the connection having been removed from the session
table (the `if (!connection) return` guard). -/
structure TelnetConn where
  ip : List Char
  state : List Char := strL "login"
  username : Option (List Char) := none
  authenticated : Bool := false
  closed : Bool := false
deriving Repr, DecidableEq

/-- Fresh Telnet session as created by `createTelnetHoneypot`. -/
def freshTelnet (ip : List Char) : TelnetConn := { ip := ip }

/-- `handleTelnetData`: newline-stripped, trimmed input; the `login`
state stores it as username and asks for a password, the `password`
state always reports invalid credentials and returns to `login`. -/
def handleTelnetData (c : TelnetConn) (raw : List Char) :
    TelnetConn × List (List Char) :=
  if c.closed then (c, [])
  else
    let input := trimL (safeString (some (stripNewlines raw)))
    if c.state = strL "login" then
      ({ c with username := some input, state := strL "password" },
       [strL "Password: "])
    else if c.state = strL "password" then
      ({ c with state := strL "login", username := none },
       [strL "\r\nLogin incorrect\r\n", c.ip ++ strL " login: "])
    else (c, [strL "$ "])

/-- Feed a sequence of inputs to a Telnet session. -/
def runTelnet : TelnetConn → List (List Char) → TelnetConn
  | c, [] => c
  | c, x :: xs => runTelnet (handleTelnetData c x).1 xs

/-- State of one FTP session: the command-dispatch harvester. -/
structure FTPConn where
  ip : List Char
  authenticated : Bool := false
  currentPath : List Char := strL "/"
  username : Option (List Char) := none
  closed : Bool := false
deriving Repr, DecidableEq

/-- Fresh FTP session as created by `createFTPHoneypot`. -/
def freshFTP (ip : List Char) : FTPConn := { ip := ip }

/-- `handleFTPData`: trim and uppercase the line, split off the first
whitespace token as the verb, dispatch through the fixed table. -/
def handleFTPData (c : FTPConn) (raw : List Char) :
    FTPConn × List (List Char) :=
  if c.closed then (c, [])
  else
    let command := ucL (safeString (some (trimL raw)))
    let cmd := command.takeWhile (fun ch => ch ≠ ' ')
    let arg := (command.dropWhile (fun ch => ch ≠ ' ')).drop 1
    if cmd = strL "USER" then
      ({ c with username := some arg }, [strL "331 Username ok, need password.\r\n"])
    else if cmd = strL "PASS" then (c, [strL "530 Login incorrect.\r\n"])
    else if cmd = strL "SYST" then (c, [strL "215 UNIX Type: L8\r\n"])
    else if cmd = strL "PWD" then
      (c, [strL "257 \"" ++ c.currentPath ++ strL "\" is current directory.\r\n"])
    else if cmd = strL "LIST" then
      (c, [strL "150 Here comes the directory listing.\r\n",
           strL "drwxr-xr-x    2 ftp      ftp          4096 Jan 01 12:00 documents\r\n",
           strL "drwxr-xr-x    2 ftp      ftp          4096 Jan 01 12:00 downloads\r\n",
           strL "-rw-r--r--    1 ftp      ftp           123 Jan 01 12:00 readme.txt\r\n",
           strL "226 Directory send OK.\r\n"])
    else if cmd = strL "CWD" then
      ({ c with currentPath := if arg.isEmpty then strL "/" else arg },
       [strL "250 Directory successfully changed.\r\n"])
    else if cmd = strL "RETR" then (c, [strL "550 File not found.\r\n"])
    else if cmd = strL "QUIT" then
      ({ c with closed := true }, [strL "221 Goodbye.\r\n"])
    else (c, [strL "500 Unknown command.\r\n"])

/-- State of one SSH session: the login-denial harvester. -/
structure SSHConn where
  ip : List Char := []
  attempts : Nat := 0
  commands : List (List Char) := []
  closed : Bool := false
deriving Repr, DecidableEq

/-- `handleSSHData`: trimmed input containing `password` or `login`
increments the attempt counter and is denied; once the counter exceeds
3 a final denial is sent and the socket destroyed; an `SSH-` version
string is echoed with the banner; anything else gets a prompt. -/
def handleSSHData (c : SSHConn) (raw : List Char) :
    SSHConn × List (List Char) :=
  if c.closed then (c, [])
  else
    let input := safeString (some (trimL raw))
    let c := { c with commands := c.commands ++ [input] }
    if containsL input (strL "password") || containsL input (strL "login") then
      let c := { c with attempts := c.attempts + 1 }
      if c.attempts > 3 then
        ({ c with closed := true },
         [strL "Permission denied (publickey,password).\r\n",
          strL "Too many authentication failures\r\n"])
      else (c, [strL "Permission denied (publickey,password).\r\n"])
    else if (strL "SSH-").isPrefixOf input then
      (c, [strL "SSH-2.0-OpenSSH_8.9p1 Ubuntu-3ubuntu0.1\r\n"])
    else (c, [strL "$ "])

/-- Feed a sequence of inputs to an SSH session, collecting replies. -/
def runSSH : SSHConn → List (List Char) → SSHConn × List (List Char)
  | c, [] => (c, [])
  | c, x :: xs =>
    let r1 := handleSSHData c x
    let r2 := runSSH r1.1 xs
    (r2.1, r1.2 ++ r2.2)

/-! ### Listener registry: port probing and remapping -/

/-- The service port configuration of the `HoneypotCore` constructor,
in insertion order. -/
def defaultPorts : List (List Char × Nat) :=
  [(strL "ssh", 2222), (strL "telnet", 2323), (strL "ftp", 2121),
   (strL "http", 8080), (strL "https", 8443), (strL "smtp", 2525),
   (strL "mysql", 3306), (strL "postgresql", 5432), (strL "redis", 6379),
   (strL "mongodb", 27017), (strL "rdp", 3389), (strL "smb", 445),
   (strL "dns", 5353), (strL "snmp", 1161), (strL "tftp", 6969),
   (strL "vnc", 5900), (strL "elasticsearch", 9200), (strL "memcached", 11211)]

/-- The ports probed by `checkWSLCapabilities`. -/
def testPorts : List Nat := [2222, 2121, 2323, 8080, 3306, 5432, 6379]

/-- The `while (!(await this.checkPortAvailable(altPort)) && altPort <
port + 2000) altPort++` loop; the fuel of 1000 covers every iteration
the bound permits starting from `port + 1000`. -/
def altPortLoop (busy : Nat → Bool) : Nat → Nat → Nat → Nat
  | 0, altPort, _ => altPort
  | fuel + 1, altPort, bound =>
    if busy altPort && decide (altPort < bound) then
      altPortLoop busy fuel (altPort + 1) bound
    else altPort

/-- Alternative-port search of `checkWSLCapabilities`: scan upward from
`port + 1000`, stopping at the first free port or at `port + 2000`. -/
def findAltPort (busy : Nat → Bool) (port : Nat) : Nat :=
  altPortLoop busy 1000 (port + 1000) (port + 2000)

/-- One probe step of `checkWSLCapabilities`: if the configured port is
busy, find the alternative and remap the first service configured with
that port. -/
def wslAdjustPort (busy : Nat → Bool) (m : List (List Char × Nat))
    (port : Nat) : List (List Char × Nat) :=
  if !busy port then m
  else
    let altPort := findAltPort busy port
    match m.find? (fun e => e.2 == port) with
    | some e => alSet m e.1 altPort
    | none => m

/-- The port-availability pass of `checkWSLCapabilities` over every
test port. -/
def checkWSLCapabilities (busy : Nat → Bool) (m : List (List Char × Nat)) :
    List (List Char × Nat) :=
  testPorts.foldl (wslAdjustPort busy) m

/-- The `EADDRINUSE` retry of `createSSHHoneypot`: increment the port
and try again. The source recursion is unbounded; `fuel` bounds the
model, and `none` means the retry had not bound a port within `fuel`
attempts. -/
def sshBindRetry (busy : Nat → Bool) : Nat → Nat → Option Nat
  | 0, _ => none
  | fuel + 1, port => if busy port then sshBindRetry busy fuel (port + 1) else some port

/-! ### Claim-side definitions -/

/-- The loopback/private source classes enumerated by the
specification: 127.0.0.1, ::1, any 10.x, 172.16-31.x, 192.168.x.
Stated from the specification text, to be compared with the source's
`isLocalhostStrict`. -/
def specPrivateSource (ip : List Char) : Bool :=
  ip == strL "127.0.0.1" || ip == strL "::1" ||
  (strL "10.").isPrefixOf ip || (strL "192.168.").isPrefixOf ip ||
  ([strL "172.16.", strL "172.17.", strL "172.18.", strL "172.19.",
    strL "172.20.", strL "172.21.", strL "172.22.", strL "172.23.",
    strL "172.24.", strL "172.25.", strL "172.26.", strL "172.27.",
    strL "172.28.", strL "172.29.", strL "172.30.", strL "172.31."]).any
    (fun p => p.isPrefixOf ip)

/-- The address prefixes `isLocalhostStrict` tests. -/
def knownLocalPrefixes : List (List Char) :=
  [strL "127.", strL "::", strL "192.168.", strL "10.",
   strL "172.16.", strL "172.17.", strL "172.18.", strL "172.19.",
   strL "172.20.", strL "172.21.", strL "172.22.", strL "172.23.",
   strL "172.24.", strL "172.25.", strL "172.26.", strL "172.27.",
   strL "172.28.", strL "172.29.", strL "172.30.", strL "172.31."]

/-- One observation of the port-scan scenario of the specification:
a fixed public source touching destination port `p`. -/
def psEntry (ip : List Char) (now p : Nat) : TrafficEntry :=
  { data := { src_ip := some ip, payload := some (strL "x"), dst_port := some p },
    timestamp := now }

/-- Observation with the brute-force payload of a failed login, from a
public source. -/
def dFail88 : TrafficData :=
  { src_ip := some (strL "8.8.8.8"), payload := some (strL "failed login") }

/-- Observation carrying the SQL-injection payload
`1' UNION SELECT username,password FROM users--` from a public
source. -/
def dSQL88 : TrafficData :=
  { src_ip := some (strL "8.8.8.8")
    payload := some ((strL "1") ++ [Char.ofNat 39] ++
      (strL " UNION SELECT username,password FROM users--")) }

/-! ### Library facts about trimming and prefixes -/

/-- Dropping leading whitespace from an all-non-whitespace list is the
identity. -/
theorem dropWhile_isWS_eq_self (l : List Char)
    (h : ∀ c ∈ l, isWS c = false) : l.dropWhile isWS = l := by
  cases l with
  | nil => rfl
  | cons c t =>
    rw [List.dropWhile_cons, if_neg]
    simp [h c (List.mem_cons_self c t)]

/-- Right trimming preserves an all-non-whitespace prefix. -/
theorem prefix_trimRightL (p r : List Char)
    (hp : ∀ c ∈ p, isWS c = false) : p <+: trimRightL (p ++ r) := by
  unfold trimRightL
  rw [List.reverse_append, List.dropWhile_append]
  split
  · rw [dropWhile_isWS_eq_self p.reverse
      (fun c hc => hp c (List.mem_reverse.mp hc)), List.reverse_reverse]
  · rw [List.reverse_append, List.reverse_reverse]
    exact List.prefix_append p _

/-- Left trimming keeps a list whose head is not whitespace. -/
theorem trimLeftL_cons_of_not_ws (c : Char) (t : List Char)
    (h : isWS c = false) : trimLeftL (c :: t) = c :: t := by
  unfold trimLeftL
  rw [List.dropWhile_cons, if_neg]
  simp [h]

/-- `trim()` preserves a nonempty all-non-whitespace prefix. -/
theorem prefix_trimL (p ip : List Char) (hp : ∀ c ∈ p, isWS c = false)
    (hne : p ≠ []) (hpre : p <+: ip) : p <+: trimL ip := by
  obtain ⟨r, rfl⟩ := hpre
  unfold trimL
  cases p with
  | nil => exact absurd rfl hne
  | cons c t =>
    rw [List.cons_append, trimLeftL_cons_of_not_ws c _
      (hp c (List.mem_cons_self c _)), ← List.cons_append]
    exact prefix_trimRightL (c :: t) r hp

/-- Lowercasing preserves a case-fixed prefix. -/
theorem prefix_lc (p ip : List Char) (hl : List.map Char.toLower p = p)
    (h : p <+: ip) : p <+: lc ip := by
  obtain ⟨r, rfl⟩ := h
  unfold lc
  rw [List.map_append, hl]
  exact List.prefix_append p _

/-- A list with a nonempty prefix is nonempty. -/
theorem isEmpty_false_of_leading (q ip : List Char) (hne : q ≠ [])
    (h : q <+: ip) : ip.isEmpty = false := by
  obtain ⟨r, rfl⟩ := h
  cases q with
  | nil => exact absurd rfl hne
  | cons c t => rfl

/-- Any of the known local prefixes of the (lowercased, trimmed)
address makes `isLocalhostStrict` accept. -/
theorem isLocal_of_known_prefix (ip q : List Char)
    (hq : q ∈ knownLocalPrefixes)
    (h : q.isPrefixOf (trimL (lc ip)) = true)
    (hne : ip.isEmpty = false) :
    isLocalhostStrict (some ip) = true := by
  simp only [isLocalhostStrict, hne, Bool.false_eq_true, if_false]
  fin_cases hq <;> simp [h]

/-- A known local prefix of the raw address makes `isLocalhostStrict`
accept: the prefixes survive lowercasing and trimming. -/
theorem isLocal_of_prefix (ip q : List Char) (hq : q ∈ knownLocalPrefixes)
    (h : q.isPrefixOf ip = true) : isLocalhostStrict (some ip) = true := by
  have h1 : q <+: ip := List.isPrefixOf_iff_prefix.mp h
  have hqne : q ≠ [] := by fin_cases hq <;> decide
  have hqw : ∀ c ∈ q, isWS c = false := by fin_cases hq <;> decide
  have hql : List.map Char.toLower q = q := by fin_cases hq <;> decide
  have h2 : q <+: trimL (lc ip) :=
    prefix_trimL q (lc ip) hqw hqne (prefix_lc q ip hql h1)
  exact isLocal_of_known_prefix ip q hq (List.isPrefixOf_iff_prefix.mpr h2)
    (isEmpty_false_of_leading q ip hqne h1)

/-- Every source in the specification's private classes is accepted by
the source's `isLocalhostStrict`. -/
theorem specPrivate_isLocal (ip : List Char)
    (h : specPrivateSource ip = true) : isLocalhostStrict (some ip) = true := by
  simp only [specPrivateSource, Bool.or_eq_true, List.any_eq_true] at h
  rcases h with ((((h | h) | h) | h) | ⟨q, hq, h⟩)
  · rw [beq_iff_eq] at h; subst h; decide
  · rw [beq_iff_eq] at h; subst h; decide
  · exact isLocal_of_prefix ip (strL "10.") (by decide) h
  · exact isLocal_of_prefix ip (strL "192.168.") (by decide) h
  · refine isLocal_of_prefix ip q ?_ h
    fin_cases hq <;> decide

/-! ### Claim theorems -/

/-- C1: for every observation whose resolved source address is
loopback or private-range (127.0.0.1, ::1, any 10.x, 172.16-31.x,
192.168.x), `processTrafficData` is a no-op: no incident is emitted on
any detection path and the detector state — traffic buffer, activity
records, recorded incidents — is unchanged, regardless of the
payload. -/
theorem C1_private_source_never_emits (st : DetectorState) (now : Nat)
    (d : TrafficData) (h : specPrivateSource (resolvedSource d) = true) :
    processTrafficData st now (some d) = (st, []) := by
  have hloc := specPrivate_isLocal _ h
  simp only [processTrafficData]
  cases hp : jsStr d.payload with
  | none => rfl
  | some s => simp [hloc]

set_option maxRecDepth 10000 in
/-- Witness for C1 at the private source 10.1.2.3 with an
otherwise-matching payload. -/
theorem C1_private_source_never_emits_witness :
    specPrivateSource (resolvedSource
      { src_ip := some (strL "10.1.2.3"),
        payload := some (strL "failed login") }) = true ∧
    processTrafficData initDetector 0
      (some { src_ip := some (strL "10.1.2.3"),
              payload := some (strL "failed login") }) = (initDetector, []) :=
  ⟨by decide, C1_private_source_never_emits initDetector 0 _ (by decide)⟩

/-- C10: a call to `processTrafficData` with missing data, or with an
absent, null or empty-string payload, is a no-op: nothing is buffered,
nothing recorded, nothing emitted. -/
theorem C10_falsy_payload_noop (st : DetectorState) (now : Nat)
    (d : TrafficData) :
    processTrafficData st now none = (st, []) ∧
    processTrafficData st now (some { d with payload := none }) = (st, []) ∧
    processTrafficData st now (some { d with payload := some [] }) = (st, []) :=
  ⟨rfl, rfl, rfl⟩

set_option maxRecDepth 10000 in
/-- C3: the observation `1' UNION SELECT username,password FROM
users--` from the public source 8.8.8.8 produces exactly one incident,
of type `sqlinjection` with severity `high`: no other signature rule
and no threat-signature check fires. -/
theorem C3_sqlinjection_single_incident :
    ((processTrafficData initDetector 0 (some dSQL88)).2).map
      (fun a => (a.type, a.severity)) =
      [(strL "sqlinjection", strL "high")] := by
  decide

set_option maxRecDepth 10000 in
/-- C2 (violated by the code): `analyzeImmediateThreats` never
consults a rule's `threshold` or `timeWindow`; the bruteforce rule,
declared with threshold 5, fires on the very first matching
observation from a fresh detector. -/
theorem C2_threshold_ignored_fires_first_match :
    ((processTrafficData initDetector 0 (some dFail88)).2).map
      (fun a => a.type) = [strL "bruteforce"] ∧
    (alGet (detectionRules.map (fun nr => (nr.1, nr.2.threshold)))
      (strL "bruteforce")) = some 5 := by
  constructor
  · decide
  · decide

set_option maxRecDepth 10000 in
/-- C6: on a fresh FTP session, `USER alice` is acknowledged, `PWD`
replies with the literal default current path `/`, and `QUIT` says
goodbye and closes the session. -/
theorem C6_ftp_user_pwd_quit :
    ((handleFTPData (freshFTP (strL "8.8.8.8")) (strL "USER alice")).2 =
      [strL "331 Username ok, need password.\r\n"]) ∧
    ((handleFTPData (handleFTPData (freshFTP (strL "8.8.8.8"))
        (strL "USER alice")).1 (strL "PWD")).2 =
      [strL "257 \"/\" is current directory.\r\n"]) ∧
    (((handleFTPData (handleFTPData (freshFTP (strL "8.8.8.8"))
        (strL "USER alice")).1 (strL "PWD")).2.any
        (fun rep => containsL rep (strL "/"))) = true) ∧
    ((handleFTPData (handleFTPData (handleFTPData (freshFTP (strL "8.8.8.8"))
        (strL "USER alice")).1 (strL "PWD")).1 (strL "QUIT")).2 =
      [strL "221 Goodbye.\r\n"]) ∧
    ((handleFTPData (handleFTPData (handleFTPData (freshFTP (strL "8.8.8.8"))
        (strL "USER alice")).1 (strL "PWD")).1 (strL "QUIT")).1.closed = true) := by
  decide

set_option maxRecDepth 10000 in
/-- C4 counterexample: the log-monitoring emission path stamps the
constant target-id `system` while the traffic path stamps the MD5
prefix of the source, so two incidents with the same source address
8.8.8.8 carry different target-ids, and the log path's target-id is
not a hash of the source. -/
theorem C4_counterexample_log_path_constant :
    ((analyzeLogLine (strL "failed login from 8.8.8.8") (strL "auth")).map
      (fun a => (a.source, a.targetId)) =
      [(strL "8.8.8.8", strL "system")]) ∧
    (((processTrafficData initDetector 0 (some dFail88)).2).map
      (fun a => (a.source, a.targetId)) =
      [(strL "8.8.8.8", strL "40ff44d9")]) ∧
    generateTargetId (strL "8.8.8.8") = strL "40ff44d9" ∧
    strL "system" ≠ strL "40ff44d9" := by
  refine ⟨by decide, by decide, by decide, by decide⟩

/-- From a non-closed Telnet session in one of the two login states,
any input sequence keeps the session open, leaves the `authenticated`
flag untouched, and lands in the state determined by the parity of the
number of inputs. -/
theorem runTelnet_state_parity (inputs : List (List Char)) :
    ∀ (c : TelnetConn), c.closed = false →
    (c.state = strL "login" ∨ c.state = strL "password") →
    (runTelnet c inputs).closed = false ∧
    (runTelnet c inputs).authenticated = c.authenticated ∧
    (runTelnet c inputs).state =
      (if (inputs.length + (if c.state = strL "password" then 1 else 0)) % 2 = 0
       then strL "login" else strL "password") := by
  induction inputs with
  | nil =>
    intro c h1 h2
    refine ⟨h1, rfl, ?_⟩
    simp only [runTelnet]
    rcases h2 with h2 | h2 <;> rw [h2] <;> decide
  | cons x xs ih =>
    intro c h1 h2
    simp only [runTelnet]
    rcases h2 with h2 | h2
    · have hstate : (handleTelnetData c x).1 =
          { c with username := some (trimL (safeString (some (stripNewlines x)))),
                   state := strL "password" } := by
        simp [handleTelnetData, h1, h2]
      rw [hstate]
      obtain ⟨i1, i2, i3⟩ := ih
        { c with username := some (trimL (safeString (some (stripNewlines x)))),
                 state := strL "password" } h1 (Or.inr rfl)
      refine ⟨i1, i2, ?_⟩
      rw [show ({ c with
            username := some (trimL (safeString (some (stripNewlines x)))),
            state := strL "password" } : TelnetConn).state = strL "password"
          from rfl] at i3
      have e1 : (if (strL "password" = strL "password") then (1 : Nat) else 0) = 1 := by
        decide
      rw [e1] at i3
      rw [h2]
      have e0 : (if (strL "login" = strL "password") then (1 : Nat) else 0) = 0 := by
        decide
      rw [e0, List.length_cons, Nat.add_zero]
      exact i3
    · have hstate : (handleTelnetData c x).1 =
          { c with state := strL "login", username := none } := by
        simp [handleTelnetData, h1, h2]
        rw [if_neg (by decide : ¬(strL "password" = strL "login"))]
      rw [hstate]
      obtain ⟨i1, i2, i3⟩ := ih
        { c with state := strL "login", username := none } h1 (Or.inl rfl)
      refine ⟨i1, i2, ?_⟩
      rw [show ({ c with state := strL "login", username := none } :
            TelnetConn).state = strL "login" from rfl] at i3
      have e0 : (if (strL "login" = strL "password") then (1 : Nat) else 0) = 0 := by
        decide
      rw [e0, Nat.add_zero] at i3
      rw [h2]
      have e1 : (if (strL "password" = strL "password") then (1 : Nat) else 0) = 1 := by
        decide
      rw [e1, List.length_cons]
      have hmod : (xs.length + 1 + 1) % 2 = xs.length % 2 := by omega
      rw [hmod]
      exact i3

/-- C5: the Telnet two-step login harvester only alternates between the
awaiting-username (`login`) and awaiting-password (`password`) states
— after `n` inputs the session is in `login` exactly when `n` is even
— the session's `authenticated` flag never becomes true for any input
sequence, and the password state always replies with invalid
credentials and returns to the username state. -/
theorem C5_telnet_never_authenticated :
    (∀ (ip : List Char) (inputs : List (List Char)),
      (runTelnet (freshTelnet ip) inputs).authenticated = false ∧
      (runTelnet (freshTelnet ip) inputs).state =
        (if inputs.length % 2 = 0 then strL "login" else strL "password")) ∧
    (∀ (c : TelnetConn) (x : List Char),
      handleTelnetData { c with state := strL "password", closed := false } x =
        ({ c with state := strL "login", username := none, closed := false },
         [strL "\r\nLogin incorrect\r\n", c.ip ++ strL " login: "])) := by
  constructor
  · intro ip inputs
    obtain ⟨i1, i2, i3⟩ :=
      runTelnet_state_parity inputs (freshTelnet ip) rfl (Or.inl rfl)
    refine ⟨i2, ?_⟩
    rw [show (freshTelnet ip).state = strL "login" from rfl] at i3
    have e0 : (if (strL "login" = strL "password") then (1 : Nat) else 0) = 0 := by
      decide
    rw [e0, Nat.add_zero] at i3
    exact i3
  · intro c x
    rcases c with ⟨cip, cst, cu, ca, ccl⟩
    rfl

set_option maxRecDepth 10000 in
/-- C9 counterexample: after exactly three messages containing an
authentication keyword, the SSH session has counted three attempts,
received only the ordinary denial three times, and is still open — no
final denial and no forced close happen after the third failure. -/
theorem C9_counterexample_open_after_three :
    ((runSSH { ip := strL "8.8.8.8" }
        [strL "password", strL "password", strL "password"]).1.attempts = 3) ∧
    ((runSSH { ip := strL "8.8.8.8" }
        [strL "password", strL "password", strL "password"]).1.closed = false) ∧
    ((runSSH { ip := strL "8.8.8.8" }
        [strL "password", strL "password", strL "password"]).2 =
      [strL "Permission denied (publickey,password).\r\n",
       strL "Permission denied (publickey,password).\r\n",
       strL "Permission denied (publickey,password).\r\n"]) := by
  refine ⟨by decide, by decide, by decide⟩

/-- C9 amended: every keyword-bearing message on an open SSH session
increments the attempt counter and is denied; the final denial and the
forced close happen once the counter exceeds 3, that is on the fourth
failure, not after the third. -/
theorem C9_denials_close_on_fourth_failure :
    (∀ (c : SSHConn) (raw : List Char),
      c.closed = false →
      (containsL (safeString (some (trimL raw))) (strL "password") ||
       containsL (safeString (some (trimL raw))) (strL "login")) = true →
      handleSSHData c raw =
        (if c.attempts + 1 > 3 then
          ({ c with commands := c.commands ++ [safeString (some (trimL raw))],
                    attempts := c.attempts + 1, closed := true },
           [strL "Permission denied (publickey,password).\r\n",
            strL "Too many authentication failures\r\n"])
        else
          ({ c with commands := c.commands ++ [safeString (some (trimL raw))],
                    attempts := c.attempts + 1 },
           [strL "Permission denied (publickey,password).\r\n"]))) ∧
    ((runSSH { ip := strL "8.8.8.8" }
        [strL "password", strL "password", strL "password", strL "password"]).1.closed
      = true) ∧
    ((runSSH { ip := strL "8.8.8.8" }
        [strL "password", strL "password", strL "password", strL "password"]).2 =
      [strL "Permission denied (publickey,password).\r\n",
       strL "Permission denied (publickey,password).\r\n",
       strL "Permission denied (publickey,password).\r\n",
       strL "Permission denied (publickey,password).\r\n",
       strL "Too many authentication failures\r\n"]) := by
  refine ⟨?_, by decide, by decide⟩
  intro c raw h1 hk
  rcases c with ⟨cip, cat, ccm, ccl⟩
  simp only at h1
  subst h1
  simp only [handleSSHData, Bool.false_eq_true, if_false, hk, if_true]

set_option maxRecDepth 10000 in
/-- C9 witness: a session with three counted attempts is closed by the
next keyword message, with the final denial. -/
theorem C9_denials_close_on_fourth_failure_witness :
    ((containsL (safeString (some (trimL (strL "password")))) (strL "password") ||
      containsL (safeString (some (trimL (strL "password")))) (strL "login")) = true) ∧
    handleSSHData { ip := strL "8.8.8.8", attempts := 3 } (strL "password") =
      (if 3 + 1 > 3 then
        (({ ip := strL "8.8.8.8", attempts := 3 + 1,
            commands := [safeString (some (trimL (strL "password")))],
            closed := true } : SSHConn),
         [strL "Permission denied (publickey,password).\r\n",
          strL "Too many authentication failures\r\n"])
      else
        (({ ip := strL "8.8.8.8", attempts := 3 + 1,
            commands := [safeString (some (trimL (strL "password")))] } : SSHConn),
         [strL "Permission denied (publickey,password).\r\n"])) :=
  ⟨by decide,
   C9_denials_close_on_fourth_failure.1 { ip := strL "8.8.8.8", attempts := 3 }
     (strL "password") (by decide) (by decide)⟩

/-- The alternative-port while loop stops at the first free port of its
scan range, provided enough fuel remains. -/
theorem altPortLoop_reaches (busy : Nat → Bool) :
    ∀ (fuel start bound p : Nat), start ≤ p → p < bound → p - start ≤ fuel →
    busy p = false → (∀ q, start ≤ q → q < p → busy q = true) →
    altPortLoop busy fuel start bound = p := by
  intro fuel
  induction fuel with
  | zero =>
    intro start bound p h1 h2 h3 h4 h5
    have h6 : start = p := by omega
    subst h6
    rfl
  | succ n ih =>
    intro start bound p h1 h2 h3 h4 h5
    by_cases hsp : start = p
    · subst hsp
      simp only [altPortLoop, h4, Bool.false_and, Bool.false_eq_true, if_false]
    · have hlt : start < p := lt_of_le_of_ne h1 hsp
      have hcond : (busy start && decide (start < bound)) = true := by
        rw [h5 start le_rfl hlt]
        simp
        omega
      simp only [altPortLoop, hcond, if_true]
      exact ih (start + 1) bound p (by omega) h2 (by omega) h4
        (fun q hq1 hq2 => h5 q (by omega) hq2)

/-- Replacing the value stored under one key does not change the
lookup of a different key. -/
theorem alGet_map_update_ne {α : Type} (k k' : List Char) (v : α)
    (h : k' ≠ k) (m : List (List Char × α)) :
    alGet (m.map (fun e => if e.1 == k then (k, v) else e)) k' = alGet m k' := by
  have hkk' : (k == k') = false := beq_eq_false_iff_ne.mpr (fun e2 => h e2.symm)
  induction m with
  | nil => rfl
  | cons e t iht =>
    simp only [List.map_cons]
    unfold alGet
    by_cases he : (e.1 == k) = true
    · have he1 : e.1 = k := beq_iff_eq.mp he
      rw [if_pos he,
        @List.find?_cons_of_neg _ (fun x => x.1 == k') (k, v) _ (by simp [hkk']),
        @List.find?_cons_of_neg _ (fun x => x.1 == k') e _ (by simp [he1, hkk'])]
      exact iht
    · rw [if_neg he]
      by_cases hek : (e.1 == k') = true
      · rw [@List.find?_cons_of_pos _ (fun x => x.1 == k') e _ hek,
            @List.find?_cons_of_pos _ (fun x => x.1 == k') e _ hek]
      · rw [@List.find?_cons_of_neg _ (fun x => x.1 == k') e _ hek,
            @List.find?_cons_of_neg _ (fun x => x.1 == k') e _ hek]
        exact iht

/-- Appending a binding for one key does not change the lookup of a
different key. -/
theorem alGet_append_ne {α : Type} (k k' : List Char) (v : α)
    (h : k' ≠ k) (m : List (List Char × α)) :
    alGet (m ++ [(k, v)]) k' = alGet m k' := by
  have hkk' : (k == k') = false := beq_eq_false_iff_ne.mpr (fun e2 => h e2.symm)
  induction m with
  | nil =>
    unfold alGet
    rw [List.nil_append,
      @List.find?_cons_of_neg _ (fun x => x.1 == k') (k, v) _ (by simp [hkk'])]
  | cons e t iht =>
    unfold alGet
    rw [List.cons_append]
    by_cases hek : (e.1 == k') = true
    · rw [@List.find?_cons_of_pos _ (fun x => x.1 == k') e _ hek,
          @List.find?_cons_of_pos _ (fun x => x.1 == k') e _ hek]
    · rw [@List.find?_cons_of_neg _ (fun x => x.1 == k') e _ hek,
          @List.find?_cons_of_neg _ (fun x => x.1 == k') e _ hek]
      exact iht

/-- `Map.set` leaves the lookup of every other key unchanged. -/
theorem alGet_alSet_ne {α : Type} (m : List (List Char × α))
    (k k' : List Char) (v : α) (h : k' ≠ k) :
    alGet (alSet m k v) k' = alGet m k' := by
  unfold alSet
  split
  · exact alGet_map_update_ne k k' v h m
  · exact alGet_append_ne k k' v h m

set_option maxRecDepth 10000 in
/-- C8 counterexample: with only the configured SSH port 2222
occupied, the next port 2223 is free, yet the probe remaps the SSH
service to 3222 — the retry scan starts at `port + 1000`, so the
final mapping does not report the next free port. -/
theorem C8_counterexample_not_next_free_port :
    (((fun q => q == 2222) : Nat → Bool) 2223 = false) ∧
    alGet (checkWSLCapabilities (fun q => q == 2222) defaultPorts)
      (strL "ssh") = some 3222 ∧
    (3222 : Nat) ≠ 2223 := by
  refine ⟨by decide, by decide, by decide⟩

/-- C8 amended: when a probed service port is occupied, the pre-flight
probe retries on incrementing ports within the bounded range
`[port+1000, port+2000)` (at most 1000 attempts), records the first
free port of that range in that service's final port mapping, and
leaves every other service's mapping unchanged; the runtime
`EADDRINUSE` handler separately retries on `port + 1`, binding a free
port immediately when it is available. -/
theorem C8_bounded_probe_remap (busy : Nat → Bool) (p : Nat)
    (hb : busy 2222 = true)
    (hlo : 3222 ≤ p) (hhi : p < 4222)
    (hfree : busy p = false)
    (hmin : ∀ q, 3222 ≤ q → q < p → busy q = true)
    (hothers : ∀ t ∈ testPorts, t ≠ 2222 → busy t = false) :
    checkWSLCapabilities busy defaultPorts = alSet defaultPorts (strL "ssh") p ∧
    alGet (checkWSLCapabilities busy defaultPorts) (strL "ssh") = some p ∧
    (∀ svc, svc ≠ strL "ssh" →
      alGet (checkWSLCapabilities busy defaultPorts) svc = alGet defaultPorts svc) ∧
    (∀ fuel q, busy q = false → sshBindRetry busy (fuel + 1) q = some q) := by
  have hAlt : findAltPort busy 2222 = p := by
    unfold findAltPort
    exact altPortLoop_reaches busy 1000 (2222 + 1000) (2222 + 2000) p
      (by omega) (by omega) (by omega) hfree
      (fun q hq1 hq2 => hmin q (by omega) hq2)
  have h1 : wslAdjustPort busy defaultPorts 2222 = alSet defaultPorts (strL "ssh") p := by
    unfold wslAdjustPort
    rw [hb, hAlt]
    rfl
  have hstep : ∀ (m : List (List Char × Nat)) (t : Nat), t ∈ testPorts →
      t ≠ 2222 → wslAdjustPort busy m t = m := by
    intro m t ht hne
    unfold wslAdjustPort
    rw [hothers t ht hne]
    rfl
  have hfold : checkWSLCapabilities busy defaultPorts =
      alSet defaultPorts (strL "ssh") p := by
    show List.foldl (wslAdjustPort busy) defaultPorts testPorts =
      alSet defaultPorts (strL "ssh") p
    rw [show testPorts = [2222, 2121, 2323, 8080, 3306, 5432, 6379] from rfl]
    simp only [List.foldl_cons, List.foldl_nil]
    rw [h1, hstep _ 2121 (by decide) (by decide), hstep _ 2323 (by decide) (by decide),
        hstep _ 8080 (by decide) (by decide), hstep _ 3306 (by decide) (by decide),
        hstep _ 5432 (by decide) (by decide), hstep _ 6379 (by decide) (by decide)]
  refine ⟨hfold, ?_, ?_, ?_⟩
  · rw [hfold]
    rfl
  · intro svc hsvc
    rw [hfold]
    exact alGet_alSet_ne defaultPorts (strL "ssh") svc p hsvc
  · intro fuel q hq
    simp only [sshBindRetry, hq, Bool.false_eq_true, if_false]

set_option maxRecDepth 10000 in
/-- C8 witness: only 2222 busy; the probe maps ssh to 3222 and leaves
the FTP mapping at 2121. -/
theorem C8_bounded_probe_remap_witness :
    ((fun q => q == 2222) : Nat → Bool) 2222 = true ∧
    alGet (checkWSLCapabilities (fun q => q == 2222) defaultPorts)
      (strL "ssh") = some 3222 ∧
    alGet (checkWSLCapabilities (fun q => q == 2222) defaultPorts)
      (strL "ftp") = alGet defaultPorts (strL "ftp") :=
  ⟨by decide,
   (C8_bounded_probe_remap (fun q => q == 2222) 3222 (by decide) (by decide)
     (by decide) (by decide)
     (by intro q h1 h2; omega)
     (by intro t ht hne
         fin_cases ht
         · exact absurd rfl hne
         all_goals decide)).2.1,
   (C8_bounded_probe_remap (fun q => q == 2222) 3222 (by decide) (by decide)
     (by decide) (by decide)
     (by intro q h1 h2; omega)
     (by intro t ht hne
         fin_cases ht
         · exact absurd rfl hne
         all_goals decide)).2.2.1 (strL "ftp") (by decide)⟩

/-- Every threat reported by `reportThreat` stamps the hash of its own
source. -/
theorem mem_reportThreat_targetId {a : Attack} {t : List Char}
    {d : TrafficData} {desc : List Char} (h : a ∈ reportThreat t d desc) :
    a.targetId = generateTargetId a.source := by
  simp only [reportThreat] at h
  split at h
  · simp at h
  · rw [List.mem_singleton] at h
    subst h
    rfl

/-- Every threat-signature incident stamps the hash of its own
source. -/
theorem mem_checkThreat_targetId {a : Attack} {d : TrafficData}
    (h : a ∈ checkThreatSignatures d) :
    a.targetId = generateTargetId a.source := by
  simp only [checkThreatSignatures] at h
  split at h
  · simp at h
  · simp only [List.mem_append] at h
    rcases h with (h | h) | h <;> repeat' split at h
    all_goals first
      | exact mem_reportThreat_targetId h
      | simp at h

/-- Every incident of the immediate analysis stamps the hash of its
own source. -/
theorem mem_analyzeImmediate_targetId {a : Attack} {d : TrafficData}
    (h : a ∈ analyzeImmediateThreats d) :
    a.targetId = generateTargetId a.source := by
  simp only [analyzeImmediateThreats] at h
  split at h
  · simp at h
  · rw [List.mem_append] at h
    rcases h with h | h
    · rw [List.mem_filterMap] at h
      obtain ⟨nr, _, hf⟩ := h
      split at hf
      · rw [Option.some.injEq] at hf
        subst hf
        rfl
      · exact absurd hf (by simp)
    · exact mem_checkThreat_targetId h

/-- Every incident emitted by `processTrafficData` stamps the hash of
its own source. -/
theorem mem_processTraffic_targetId {st : DetectorState} {now : Nat}
    {d? : Option TrafficData} {a : Attack}
    (h : a ∈ (processTrafficData st now d?).2) :
    a.targetId = generateTargetId a.source := by
  cases d? with
  | none => simp [processTrafficData] at h
  | some d =>
    cases hp : jsStr d.payload with
    | none => simp [processTrafficData, hp] at h
    | some s =>
      simp only [processTrafficData, hp] at h
      split at h
      · simp at h
      · exact mem_analyzeImmediate_targetId h

/-- Shape of a port-scanning incident: its type tag, and the hash of
its own source as target-id. -/
theorem mem_detectPortScanning_shape {t : List TrafficEntry} {a : Attack}
    (h : a ∈ detectPortScanning t) :
    a.type = strL "port_scanning" ∧ a.targetId = generateTargetId a.source := by
  simp only [detectPortScanning] at h
  rw [List.mem_filterMap] at h
  obtain ⟨e, _, hf⟩ := h
  split at hf
  · exact absurd hf (by simp)
  · split at hf
    · rw [Option.some.injEq] at hf
      subst hf
      exact ⟨rfl, rfl⟩
    · exact absurd hf (by simp)

/-- Shape of a brute-force incident. -/
theorem mem_detectBruteForce_shape {t : List TrafficEntry} {a : Attack}
    (h : a ∈ detectBruteForcePatterns t) :
    a.type = strL "brute_force" ∧ a.targetId = generateTargetId a.source := by
  simp only [detectBruteForcePatterns] at h
  rw [List.mem_filterMap] at h
  obtain ⟨e, _, hf⟩ := h
  split at hf
  · exact absurd hf (by simp)
  · split at hf
    · rw [Option.some.injEq] at hf
      subst hf
      exact ⟨rfl, rfl⟩
    · exact absurd hf (by simp)

/-- Shape of a data-exfiltration incident. -/
theorem mem_detectDataExfiltration_shape {t : List TrafficEntry} {a : Attack}
    (h : a ∈ detectDataExfiltration t) :
    a.type = strL "data_exfiltration" ∧ a.targetId = generateTargetId a.source := by
  simp only [detectDataExfiltration] at h
  rw [List.mem_filterMap] at h
  obtain ⟨e, _, hf⟩ := h
  split at hf
  · exact absurd hf (by simp)
  · split at hf
    · rw [Option.some.injEq] at hf
      subst hf
      exact ⟨rfl, rfl⟩
    · exact absurd hf (by simp)

/-- Shape of a suspicious-volume incident. -/
theorem mem_detectSuspiciousVolume_shape {t : List TrafficEntry} {a : Attack}
    (h : a ∈ detectSuspiciousVolume t) :
    a.type = strL "suspicious_volume" ∧ a.targetId = generateTargetId a.source := by
  simp only [detectSuspiciousVolume] at h
  rw [List.mem_filterMap] at h
  obtain ⟨e, _, hf⟩ := h
  split at hf
  · exact absurd hf (by simp)
  · split at hf
    · rw [Option.some.injEq] at hf
      subst hf
      exact ⟨rfl, rfl⟩
    · exact absurd hf (by simp)

/-- Every incident of the fast windowed aggregation stamps the hash of
its own source. -/
theorem mem_analyzeTrafficBuffer_targetId {st : DetectorState} {now : Nat}
    {a : Attack} (h : a ∈ (analyzeTrafficBuffer st now).2) :
    a.targetId = generateTargetId a.source := by
  simp only [analyzeTrafficBuffer, List.mem_append] at h
  rcases h with ((h | h) | h) | h
  · exact (mem_detectPortScanning_shape h).2
  · exact (mem_detectBruteForce_shape h).2
  · exact (mem_detectDataExfiltration_shape h).2
  · exact (mem_detectSuspiciousVolume_shape h).2

/-- Every behavioral anomaly stamps the hash of its own source. -/
theorem mem_reportBehavioral_targetId {ip ty ds : List Char} {a : Attack}
    (h : a ∈ reportBehavioralAnomaly ip ty ds) :
    a.targetId = generateTargetId a.source := by
  simp only [reportBehavioralAnomaly] at h
  split at h
  · simp at h
  · rw [List.mem_singleton] at h
    subst h
    rfl

/-- Every incident of the per-source behavioral analysis stamps the
hash of its own source. -/
theorem mem_analyzeIPBehavior_targetId {ip : List Char}
    {acts : List ActivityEntry} {a : Attack}
    (h : a ∈ analyzeIPBehavior ip acts) :
    a.targetId = generateTargetId a.source := by
  simp only [analyzeIPBehavior] at h
  split at h
  · simp at h
  · rw [List.mem_append] at h
    rcases h with h | h <;> split at h
    · exact mem_reportBehavioral_targetId h
    · simp at h
    · exact mem_reportBehavioral_targetId h
    · simp at h

/-- Every incident of the slow behavioral cadence stamps the hash of
its own source. -/
theorem mem_analyzeBehavior_targetId {st : DetectorState} {now : Nat}
    {a : Attack} (h : a ∈ (analyzeBehaviorPatterns st now).2) :
    a.targetId = generateTargetId a.source := by
  simp only [analyzeBehaviorPatterns] at h
  rw [List.mem_flatMap] at h
  obtain ⟨e, _, hf⟩ := h
  split at hf
  · simp at hf
  · exact mem_analyzeIPBehavior_targetId hf

/-- Every incident of the log-monitoring path carries the constant
target-id `system`. -/
theorem mem_analyzeLogLine_system {line lt : List Char} {a : Attack}
    (h : a ∈ analyzeLogLine line lt) : a.targetId = strL "system" := by
  simp only [analyzeLogLine] at h
  split at h
  · simp at h
  · rw [List.mem_filterMap] at h
    obtain ⟨nr, _, hf⟩ := h
    split at hf
    · rw [Option.some.injEq] at hf
      subst hf
      rfl
    · exact absurd hf (by simp)

/-- C4 amended: every incident emitted by the traffic-processing,
windowed-aggregation and behavioral paths carries a target-id equal to
`generateTargetId` of its own source address — the first eight hex
characters of the MD5 of the source, a deterministic function of the
source alone — while the log-monitoring path (`analyzeLogLine`)
instead stamps the constant `system`. -/
theorem C4_targetId_hash_except_log_path :
    (∀ (st : DetectorState) (now : Nat) (d? : Option TrafficData) (a : Attack),
      a ∈ (processTrafficData st now d?).2 →
      a.targetId = generateTargetId a.source) ∧
    (∀ (st : DetectorState) (now : Nat) (a : Attack),
      a ∈ (analyzeTrafficBuffer st now).2 →
      a.targetId = generateTargetId a.source) ∧
    (∀ (st : DetectorState) (now : Nat) (a : Attack),
      a ∈ (analyzeBehaviorPatterns st now).2 →
      a.targetId = generateTargetId a.source) ∧
    (∀ (line logType : List Char) (a : Attack),
      a ∈ analyzeLogLine line logType → a.targetId = strL "system") :=
  ⟨fun _ _ _ _ h => mem_processTraffic_targetId h,
   fun _ _ _ h => mem_analyzeTrafficBuffer_targetId h,
   fun _ _ _ h => mem_analyzeBehavior_targetId h,
   fun _ _ _ h => mem_analyzeLogLine_system h⟩

set_option maxRecDepth 10000 in
set_option maxHeartbeats 2000000 in
/-- C4 witness: the brute-force incident for a failed login from
8.8.8.8 is emitted by `processTrafficData`, and its target-id is the
hash of its source. -/
theorem C4_targetId_hash_except_log_path_witness :
    (({ type := strL "bruteforce",
        description := strL "Brute force attack detected",
        severity := strL "high", source := strL "8.8.8.8",
        target := strL "honeypot", payload := strL "failed login",
        targetId := strL "40ff44d9" } : Attack) ∈
      (processTrafficData initDetector 0 (some dFail88)).2) ∧
    (strL "40ff44d9" : List Char) = generateTargetId (strL "8.8.8.8") :=
  ⟨by decide,
   C4_targetId_hash_except_log_path.1 initDetector 0 (some dFail88)
     { type := strL "bruteforce",
       description := strL "Brute force attack detected",
       severity := strL "high", source := strL "8.8.8.8",
       target := strL "honeypot", payload := strL "failed login",
       targetId := strL "40ff44d9" } (by decide)⟩

/-- A truthy (nonempty) string is preserved by JavaScript string
truthiness. -/
theorem jsStr_some_of_ne (ip : List Char) (h : ip ≠ []) :
    jsStr (some ip) = some ip := by
  cases ip with
  | nil => exact absurd rfl h
  | cons c t => rfl

/-- A source that `isLocalhostStrict` rejects is nonempty. -/
theorem ne_nil_of_not_local (ip : List Char)
    (h : isLocalhostStrict (some ip) = false) : ip ≠ [] := by
  intro he
  subst he
  exact absurd h (by decide)

/-- A positive port number is preserved by JavaScript number
truthiness. -/
theorem jsNat_some_of_pos (p : Nat) (h : p ≠ 0) : jsNat (some p) = some p := by
  cases p with
  | zero => exact absurd rfl h
  | succ n => rfl

/-- One port-scan accumulation step on the single-source map. -/
theorem portScanStep_acc (ip : List Char)
    (hloc : isLocalhostStrict (some ip) = false) (now p : Nat)
    (acc : List Nat) (hp : p ≠ 0) :
    portScanStep [(ip, acc)] (psEntry ip now p) = [(ip, addIfNew acc p)] := by
  have hne := ne_nil_of_not_local ip hloc
  have h1 : jsOrS (some ip) none = some ip := by
    unfold jsOrS
    rw [jsStr_some_of_ne ip hne]
  have h2 : jsOrN (some p) none = some p := by
    unfold jsOrN
    rw [jsNat_some_of_pos p hp]
  simp [portScanStep, psEntry, h1, h2, hloc, alGet, alSet]

/-- The first port-scan accumulation step, creating the source's
entry. -/
theorem portScanStep_nil (ip : List Char)
    (hloc : isLocalhostStrict (some ip) = false) (now p : Nat) (hp : p ≠ 0) :
    portScanStep [] (psEntry ip now p) = [(ip, [p])] := by
  have hne := ne_nil_of_not_local ip hloc
  have h1 : jsOrS (some ip) none = some ip := by
    unfold jsOrS
    rw [jsStr_some_of_ne ip hne]
  have h2 : jsOrN (some p) none = some p := by
    unfold jsOrN
    rw [jsNat_some_of_pos p hp]
  simp [portScanStep, psEntry, h1, h2, hloc, alGet, alSet, addIfNew]

/-- Folding the port-scan step over same-source observations keeps the
single map entry and accumulates the ports. -/
theorem portScanFold (ip : List Char)
    (hloc : isLocalhostStrict (some ip) = false) (now : Nat) :
    ∀ (ps : List Nat) (acc : List Nat), (∀ p ∈ ps, p ≠ 0) →
    List.foldl portScanStep [(ip, acc)] (ps.map (psEntry ip now)) =
      [(ip, ps.foldl addIfNew acc)] := by
  intro ps
  induction ps with
  | nil => intro acc _; rfl
  | cons p t ih =>
    intro acc hp
    simp only [List.map_cons, List.foldl_cons]
    rw [portScanStep_acc ip hloc now p acc (hp p (List.mem_cons_self p t))]
    exact ih (addIfNew acc p) (fun q hq => hp q (List.mem_cons_of_mem _ hq))

/-- Adding pairwise-distinct fresh ports to a port set is plain
appending. -/
theorem foldl_addIfNew_nodup :
    ∀ (ps acc : List Nat), (acc ++ ps).Nodup →
    ps.foldl addIfNew acc = acc ++ ps := by
  intro ps
  induction ps with
  | nil => intro acc _; simp
  | cons p t ih =>
    intro acc h
    have hmem : p ∉ acc := by
      intro hm
      exact (List.nodup_append.mp h).2.2 hm (List.mem_cons_self p t)
    simp only [List.foldl_cons]
    rw [show addIfNew acc p = acc ++ [p] from by
      unfold addIfNew
      rw [if_neg]
      simp [hmem]]
    rw [ih (acc ++ [p]) (by simpa [List.append_assoc] using h)]
    simp

/-- A port set never grows beyond the number of additions. -/
theorem foldl_addIfNew_length :
    ∀ (ps acc : List Nat), (ps.foldl addIfNew acc).length ≤ acc.length + ps.length := by
  intro ps
  induction ps with
  | nil => intro acc; simp
  | cons p t ih =>
    intro acc
    simp only [List.foldl_cons, List.length_cons]
    have h1 : (addIfNew acc p).length ≤ acc.length + 1 := by
      unfold addIfNew
      split
      · exact Nat.le_succ _
      · simp
    have h2 := ih (addIfNew acc p)
    omega

/-- All port-scan scenario entries survive the five-minute non-local
window filter. -/
theorem psEntries_filter_eq_self (ip : List Char)
    (hloc : isLocalhostStrict (some ip) = false) (now : Nat) (ps : List Nat) :
    (ps.map (psEntry ip now)).filter (fun e =>
      decide (now - e.timestamp < 300000) &&
      !isLocalhostStrict (jsOrS e.data.src_ip e.data.source)) =
      ps.map (psEntry ip now) := by
  apply List.filter_eq_self.mpr
  intro a ha
  rw [List.mem_map] at ha
  obtain ⟨p, _, rfl⟩ := ha
  have hne := ne_nil_of_not_local ip hloc
  have h1 : jsOrS (some ip) none = some ip := by
    unfold jsOrS
    rw [jsStr_some_of_ne ip hne]
  simp [psEntry, h1, hloc, Nat.sub_self]

/-- Brute-force incidents never pass the port-scanning type filter. -/
theorem filter_portscan_of_brute (t : List TrafficEntry) :
    (detectBruteForcePatterns t).filter
      (fun a => a.type == strL "port_scanning") = [] := by
  rw [List.filter_eq_nil_iff]
  intro a ha
  rw [(mem_detectBruteForce_shape ha).1]
  decide

/-- Data-exfiltration incidents never pass the port-scanning type
filter. -/
theorem filter_portscan_of_exfil (t : List TrafficEntry) :
    (detectDataExfiltration t).filter
      (fun a => a.type == strL "port_scanning") = [] := by
  rw [List.filter_eq_nil_iff]
  intro a ha
  rw [(mem_detectDataExfiltration_shape ha).1]
  decide

/-- Suspicious-volume incidents never pass the port-scanning type
filter. -/
theorem filter_portscan_of_volume (t : List TrafficEntry) :
    (detectSuspiciousVolume t).filter
      (fun a => a.type == strL "port_scanning") = [] := by
  rw [List.filter_eq_nil_iff]
  intro a ha
  rw [(mem_detectSuspiciousVolume_shape ha).1]
  decide

/-- C7: within one aggregation window, 16 observations from one
non-filtered source across 16 distinct (nonzero) destination ports
make the windowed analysis emit exactly one port-scan incident for
that source, while 14 distinct ports produce no port-scan incident. -/
theorem C7_sixteen_ports_one_incident (ip : List Char) (ps : List Nat)
    (now : Nat) (hloc : isLocalhostStrict (some ip) = false)
    (hnd : ps.Nodup) (hpos : ∀ p ∈ ps, p ≠ 0) :
    (ps.length = 16 →
      ((analyzeTrafficBuffer
          { trafficBuffer := ps.map (psEntry ip now) } now).2.filter
        (fun a => a.type == strL "port_scanning")).map (fun a => a.source) =
        [ip]) ∧
    (ps.length = 14 →
      ((analyzeTrafficBuffer
          { trafficBuffer := ps.map (psEntry ip now) } now).2.filter
        (fun a => a.type == strL "port_scanning")) = []) := by
  constructor
  · intro h16
    cases ps with
    | nil => simp at h16
    | cons p t =>
      have ht : t.length = 15 := by
        simp only [List.length_cons] at h16
        omega
      simp only [analyzeTrafficBuffer]
      rw [psEntries_filter_eq_self ip hloc now (p :: t)]
      rw [List.filter_append, List.filter_append, List.filter_append,
          filter_portscan_of_brute, filter_portscan_of_exfil,
          filter_portscan_of_volume]
      simp only [List.append_nil]
      simp only [detectPortScanning, List.map_cons, List.foldl_cons,
        portScanStep_nil ip hloc now p (hpos p (List.mem_cons_self p t)),
        portScanFold ip hloc now t [p]
          (fun q hq => hpos q (List.mem_cons_of_mem _ hq)),
        foldl_addIfNew_nodup t [p] (by simpa using hnd)]
      simp [hloc, ht]
  · intro h14
    cases ps with
    | nil => simp at h14
    | cons p t =>
      have ht : t.length = 13 := by
        simp only [List.length_cons] at h14
        omega
      have hlen : (t.foldl addIfNew [p]).length ≤ 14 := by
        have h1 := foldl_addIfNew_length t [p]
        simp only [List.length_singleton] at h1
        omega
      have hngt : ¬ ((t.foldl addIfNew [p]).length > 15) := by omega
      simp only [analyzeTrafficBuffer]
      rw [psEntries_filter_eq_self ip hloc now (p :: t)]
      rw [List.filter_append, List.filter_append, List.filter_append,
          filter_portscan_of_brute, filter_portscan_of_exfil,
          filter_portscan_of_volume]
      simp only [List.append_nil]
      simp only [detectPortScanning, List.map_cons, List.foldl_cons,
        portScanStep_nil ip hloc now p (hpos p (List.mem_cons_self p t)),
        portScanFold ip hloc now t [p]
          (fun q hq => hpos q (List.mem_cons_of_mem _ hq))]
      simp [hloc, hngt]

set_option maxRecDepth 10000 in
set_option maxHeartbeats 2000000 in
/-- C7 witness: 16 observations over ports 1..16 from 8.8.8.8 yield
exactly one port-scan incident; 14 observations over ports 1..14 yield
none. -/
theorem C7_sixteen_ports_one_incident_witness :
    (isLocalhostStrict (some (strL "8.8.8.8")) = false) ∧
    ((analyzeTrafficBuffer
        { trafficBuffer :=
            ([1, 2, 3, 4, 5, 6, 7, 8, 9, 10, 11, 12, 13, 14, 15, 16] : List Nat).map
              (psEntry (strL "8.8.8.8") 0) } 0).2.filter
      (fun a => a.type == strL "port_scanning")).map (fun a => a.source) =
      [strL "8.8.8.8"] ∧
    ((analyzeTrafficBuffer
        { trafficBuffer :=
            ([1, 2, 3, 4, 5, 6, 7, 8, 9, 10, 11, 12, 13, 14] : List Nat).map
              (psEntry (strL "8.8.8.8") 0) } 0).2.filter
      (fun a => a.type == strL "port_scanning")) = [] :=
  ⟨by decide,
   (C7_sixteen_ports_one_incident (strL "8.8.8.8")
     [1, 2, 3, 4, 5, 6, 7, 8, 9, 10, 11, 12, 13, 14, 15, 16] 0
     (by decide) (by decide) (by decide)).1 (by decide),
   (C7_sixteen_ports_one_incident (strL "8.8.8.8")
     [1, 2, 3, 4, 5, 6, 7, 8, 9, 10, 11, 12, 13, 14] 0
     (by decide) (by decide) (by decide)).2 (by decide)⟩
